import Mathlib

/-!
Verification of the scoutradioz offline-sync layer and Express middleware
against a shallow embedding of the repository's code.

The embedding covers:
* `src/voyager/src/lib/localDB.ts` — the Dexie `LocalDB` schema (version 13):
  declared tables, their primary keys, and the store contents.
* `src/voyager/src/lib/DBOperations.ts` — the five download/sync operations
  (`EventOperations`, `TeamOperations`, `MatchOperations`,
  `MatchScoutingOperations`, `FormLayoutOperations`).
* `src/primary/public/js/script-pitscouting.js` (the appended
  `usefunctions` middleware) — `functions.authenticate` and
  `functions.requestLogger`.

Dexie semantics embedded here (semantics of the external library, modelled
from its documented behaviour):
* `db.transaction(mode, ...tables, body)` rejects with a TypeError
  ("Invalid table argument ...") when a table argument is neither a string
  nor a Table instance — in particular when it is `undefined`, which is what
  `db.syncstatus` evaluates to because the version-13 schema declares no
  `syncstatus` table.
* Accessing a table that is not part of the transaction's declared scope
  throws a NotFoundError ("Table X not part of transaction").
* Any error thrown inside the transaction body aborts the transaction and
  rolls back every write made inside it.
* `add`/`bulkAdd` fail with a ConstraintError on a duplicate unique key;
  `put`/`bulkPut` upsert (wholesale object replacement by primary key).

JavaScript pieces (`parseInt`, `Number(...)`, string padding) are modelled on
the decimal fragment actually exercised by the code: radix-10 integers for
`parseInt`, and optionally-signed decimal literals (with `""`/whitespace
collapsing to `0`) for `Number`; `0x`-prefixed and exponent forms are not
modelled.
-/

/-- Device-local light user record (`LightUser` in localDB.ts). -/
structure EventInfoFlags where
  present : Bool
  assigned : Bool
deriving DecidableEq

/-- Minimal user identity for QR transfer (`LightUser` in localDB.ts). -/
structure LightUser where
  _id : String
  org_key : String
  name : String
  role_key : String
  event_info : EventInfoFlags
deriving DecidableEq

/-- Per-alliance info of a light match (`LightMatchAllianceInfo`). -/
structure LightMatchAllianceInfo where
  team_keys : List String
  score : Int
deriving DecidableEq

/-- The red/blue alliances of a light match. -/
structure LightMatchAlliances where
  red : LightMatchAllianceInfo
  blue : LightMatchAllianceInfo
deriving DecidableEq

/-- Denormalized match summary (`LightMatch` in localDB.ts). -/
structure LightMatch where
  key : String
  event_key : String
  comp_level : String
  set_number : Nat
  match_number : Nat
  alliances : LightMatchAlliances
  time : Int
deriving DecidableEq

/-- Modelled from the spec: the `Event` document type comes from the external
`scoutradioz-types` package (not under src); the spec lists a string id, key,
name, year and the participating team keys. -/
structure EventRec where
  _id : String
  key : String
  name : String
  year : Int
  team_keys : List String
deriving DecidableEq

/-- Local team record (`TeamLocal` in localDB.ts; nullable strings become
`Option String`). -/
structure TeamLocal where
  city : Option String
  country : Option String
  key : String
  name : String
  nickname : String
  state_prov : Option String
  team_number : Nat
deriving DecidableEq

/-- Scouter identity with a string id (`ScouterRecordLocal` in localDB.ts). -/
structure ScouterRecordLocal where
  id : String
  name : String
deriving DecidableEq

/-- Modelled from the spec: `MatchScoutingLocal` extends the external
`MatchScouting` type (not under src) whose fields the spec lists as the
composite match+team key, org key, event key, team key, year, the
assigned/actual scorer, free-form scouted-data fields and a timestamp; the
local additions (`team_name?`, optional scorers) are from localDB.ts.
Optional JS fields are `Option`s; the free-form data is an association list. -/
structure MatchScoutingLocal where
  year : Int
  event_key : String
  org_key : String
  match_team_key : String
  team_key : String
  time : Int
  assigned_scorer : Option ScouterRecordLocal
  actual_scorer : Option ScouterRecordLocal
  data : Option (List (String × Int))
  team_name : Option String
deriving DecidableEq

/-- Modelled from the spec: a layout element (the external `Layout` type with
string `_id`) is "a form-field definition ... scoped to organization + year +
form type". The year is a JS number, embedded as `ℚ`. -/
structure LayoutRec where
  _id : String
  org_key : String
  year : ℚ
  form_type : String
  id : String
  label : String
  order : Int
deriving DecidableEq

/-- Sync bookkeeping row: table name, filter descriptor, last-sync time
(written by DBOperations.ts via `db.syncstatus.put`). -/
structure SyncStatusRec where
  table : String
  filter : String
  time : Nat
deriving DecidableEq

/-- Minimal org record (only the keys matter to the embedded operations). -/
structure OrgRec where
  _id : String
  org_key : String
deriving DecidableEq

/-- Minimal pit-scouting record (never touched by the embedded operations). -/
structure PitScoutingRec where
  org_key : String
  event_key : String
  team_key : String
deriving DecidableEq

/-- Names of the tables referenced anywhere in DBOperations.ts/localDB.ts.
`syncstatus` is referenced by DBOperations.ts but NOT declared in the
version-13 schema of localDB.ts. -/
inductive TableName where
  | lightusers
  | lightmatches
  | user
  | events
  | layout
  | matchscouting
  | pitscouting
  | teams
  | orgs
  | syncstatus
deriving DecidableEq

/-- The whole local store: one list of rows per table. A `syncstatus` row
list is included so that theorems can state that no SyncStatus row is ever
written, even though the version-13 schema never declares that table. -/
structure LocalStore where
  lightusers : List LightUser
  lightmatches : List LightMatch
  user : List LightUser
  events : List EventRec
  layout : List LayoutRec
  matchscouting : List MatchScoutingLocal
  pitscouting : List PitScoutingRec
  teams : List TeamLocal
  orgs : List OrgRec
  syncstatus : List SyncStatusRec
deriving DecidableEq

/-- The empty local store. -/
def emptyStore : LocalStore :=
  { lightusers := [], lightmatches := [], user := [], events := [],
    layout := [], matchscouting := [], pitscouting := [], teams := [],
    orgs := [], syncstatus := [] }

namespace LocalDB

/-- The tables declared by `this.version(13).stores({...})` in localDB.ts.
Note the absence of `syncstatus`: at runtime `db.syncstatus` is `undefined`. -/
def declaredTables : List TableName :=
  [.lightusers, .lightmatches, .user, .events, .layout, .matchscouting,
   .pitscouting, .teams, .orgs]

end LocalDB

deriving instance DecidableEq for Except

/-- Failure of the `fetchJSON` helper: non-2xx status or malformed body. -/
inductive FetchError where
  | non2xx (status : Nat)
  | malformedBody
deriving DecidableEq

/-- Errors a sync operation can reject with. `jsError` is a plain thrown
`Error(msg)` (the `getKeys` throw and the `assert` failures); the remaining
constructors are the embedded Dexie failure modes. -/
inductive SyncError where
  | jsError (msg : String)
  | fetchFailed (e : FetchError)
  | typeError (msg : String)
  | tableNotInTransaction (t : TableName)
  | constraintViolation (t : TableName)
deriving DecidableEq

/-- Dexie's message when a transaction table argument is not a string or a
Table instance (e.g. the undefined `db.syncstatus`). -/
def dexieInvalidTableArgMsg : String :=
  "Invalid table argument to Dexie.transaction(). Only strings or Table instances are allowed"

/-- The TypeError raised when a method is called on an undefined table
object (`db.syncstatus.put(...)` with no syncstatus table declared). -/
def dexieUndefinedTableMsg : String :=
  "Cannot read properties of undefined"

/-- State visible inside a Dexie transaction: the declared scope and the
current store contents. -/
structure Tx where
  scope : List TableName
  store : LocalStore

/-- Result of a sync operation: the settled promise plus the store it leaves
behind (unchanged whenever the operation rejects, by transaction rollback). -/
abbrev SyncResult := Except SyncError Unit × LocalStore

/-- Table access check inside a transaction body: an undeclared table is
`undefined` (TypeError on method access); a declared table outside the
transaction scope raises Dexie's NotFoundError. -/
def Tx.check (tx : Tx) (t : TableName) : Except SyncError Unit :=
  if LocalDB.declaredTables.contains t then
    if tx.scope.contains t then Except.ok ()
    else Except.error (SyncError.tableNotInTransaction t)
  else Except.error (SyncError.typeError dexieUndefinedTableMsg)

/-- Embedding of `db.transaction('rw', ...tables, body)`: Dexie first
validates every table argument (rejecting with a TypeError when one is
undefined, as `db.syncstatus` is), then runs the body; an error thrown in
the body aborts the transaction and rolls back every write. -/
def LocalDB.transaction (scope : List TableName) (s : LocalStore)
    (body : Tx → Except SyncError Tx) : SyncResult :=
  if scope.all (fun t => LocalDB.declaredTables.contains t) then
    match body { scope := scope, store := s } with
    | Except.ok tx => (Except.ok (), tx.store)
    | Except.error e => (Except.error e, s)
  else (Except.error (SyncError.typeError dexieInvalidTableArgMsg), s)

/-- Generic upsert (`put`) of one record: wholesale replacement of the row
with the same primary key, or append when the key is new. -/
def putByKey {α : Type} (key : α → String) (rows : List α) (r : α) : List α :=
  if rows.any (fun x => key x == key r) then
    rows.map (fun x => if key x == key r then r else x)
  else rows ++ [r]

/-- Embedding of `db.events.add(event)`: ConstraintError when the primary
key `&_id` or the unique index `&key` collides, else append. -/
def Tx.eventsAdd (tx : Tx) (e : EventRec) : Except SyncError Tx := do
  tx.check .events
  if tx.store.events.any (fun r => r._id == e._id || r.key == e.key) then
    Except.error (SyncError.constraintViolation .events)
  else
    Except.ok { tx with store := { tx.store with events := tx.store.events ++ [e] } }

/-- Embedding of `db.events.where({ key: event_key }).first()`. -/
def Tx.eventsWhereKeyFirst (tx : Tx) (k : String) :
    Except SyncError (Option EventRec) := do
  tx.check .events
  Except.ok (tx.store.events.find? (fun r => r.key == k))

/-- Embedding of `db.teams.where('key').anyOf(keys).delete()`: removes every
team whose key is in the list, returning the deleted count. -/
def Tx.teamsWhereKeyAnyOfDelete (tx : Tx) (keys : List String) :
    Except SyncError (Nat × Tx) := do
  tx.check .teams
  let remaining := tx.store.teams.filter (fun t => !(keys.contains t.key))
  Except.ok (tx.store.teams.length - remaining.length,
    { tx with store := { tx.store with teams := remaining } })

/-- Embedding of `db.teams.bulkAdd(teams)`: ConstraintError when any unique
`&key` collides (TeamLocal rows carry no `_id` field, so uniqueness is
checked on `key`), else append all. -/
def Tx.teamsBulkAdd (tx : Tx) (ts : List TeamLocal) : Except SyncError Tx := do
  tx.check .teams
  if ((tx.store.teams ++ ts).map (fun t => t.key)).Nodup then
    Except.ok { tx with store := { tx.store with teams := tx.store.teams ++ ts } }
  else Except.error (SyncError.constraintViolation .teams)

/-- Embedding of `db.lightmatches.where({ event_key }).delete()`. -/
def Tx.lightmatchesWhereEventDelete (tx : Tx) (ek : String) :
    Except SyncError (Nat × Tx) := do
  tx.check .lightmatches
  let remaining := tx.store.lightmatches.filter (fun m => !(m.event_key == ek))
  Except.ok (tx.store.lightmatches.length - remaining.length,
    { tx with store := { tx.store with lightmatches := remaining } })

/-- Embedding of `db.lightmatches.bulkAdd(matches)` (primary key `&key`). -/
def Tx.lightmatchesBulkAdd (tx : Tx) (ms : List LightMatch) :
    Except SyncError Tx := do
  tx.check .lightmatches
  if ((tx.store.lightmatches ++ ms).map (fun m => m.key)).Nodup then
    Except.ok { tx with store := { tx.store with lightmatches := tx.store.lightmatches ++ ms } }
  else Except.error (SyncError.constraintViolation .lightmatches)

/-- Embedding of `db.matchscouting.bulkPut(records)` (primary key
`&match_team_key`): sequential wholesale upsert. -/
def Tx.matchscoutingBulkPut (tx : Tx) (rs : List MatchScoutingLocal) :
    Except SyncError Tx := do
  tx.check .matchscouting
  Except.ok { tx with store := { tx.store with
    matchscouting := rs.foldl (putByKey (fun r => r.match_team_key)) tx.store.matchscouting } }

/-- Embedding of `db.layout.where({ org_key, year, form_type }).delete()`. -/
def Tx.layoutWhereDelete (tx : Tx) (org_key : String) (year : ℚ)
    (form_type : String) : Except SyncError (Nat × Tx) := do
  tx.check .layout
  let remaining := tx.store.layout.filter
    (fun l => !(l.org_key == org_key && l.year == year && l.form_type == form_type))
  Except.ok (tx.store.layout.length - remaining.length,
    { tx with store := { tx.store with layout := remaining } })

/-- Embedding of `db.layout.bulkPut(items)` (primary key `&_id`). -/
def Tx.layoutBulkPut (tx : Tx) (ls : List LayoutRec) : Except SyncError Tx := do
  tx.check .layout
  Except.ok { tx with store := { tx.store with
    layout := ls.foldl (putByKey (fun l => l._id)) tx.store.layout } }

/-- Embedding of `db.syncstatus.put(row)`. Modelled from the spec: the
SyncStatus table ("one row per (table, scope) pair; always overwritten") is
not declared anywhere under src, so its upsert key is the (table, filter)
pair the spec describes. The `tx.check` guard makes this unreachable while
`syncstatus` stays undeclared. -/
def Tx.syncstatusPut (tx : Tx) (row : SyncStatusRec) : Except SyncError Tx := do
  tx.check .syncstatus
  Except.ok { tx with store := { tx.store with
    syncstatus := putByKey (fun r => r.table ++ "|" ++ r.filter) tx.store.syncstatus row } }

/-- Embedding of `db.syncstatus.bulkPut(rows)`. -/
def Tx.syncstatusBulkPut (tx : Tx) (rows : List SyncStatusRec) :
    Except SyncError Tx := do
  tx.check .syncstatus
  Except.ok { tx with store := { tx.store with
    syncstatus := rows.foldl (putByKey (fun r => r.table ++ "|" ++ r.filter)) tx.store.syncstatus } }

/-- Numeric value of a list of decimal digit characters. -/
def digitsVal (l : List Char) : Nat :=
  l.foldl (fun n c => 10 * n + (c.toNat - '0'.toNat)) 0

/-- Whitespace characters stripped by the JS numeric conversions (the common
ASCII fragment). -/
def isJsSpace (c : Char) : Bool :=
  c = ' ' || c = '\t' || c = '\n' || c = '\r'

/-- Whitespace trimming on the character-list view of a string. -/
def trimChars (l : List Char) : List Char :=
  ((l.dropWhile isJsSpace).reverse.dropWhile isJsSpace).reverse

/-- A recognized decimal numeric literal: sign, integer-part digits,
fractional-part digits (the empty string, which JS converts to 0, is the
literal with no digits at all). -/
structure DecLit where
  neg : Bool
  ip : List Char
  fp : List Char
deriving DecidableEq

/-- Rational value of a recognized decimal literal. -/
def DecLit.val (d : DecLit) : ℚ :=
  (if d.neg then -1 else 1) *
    ((digitsVal d.ip : ℚ) + (digitsVal d.fp : ℚ) / ((10 : ℚ) ^ d.fp.length))

/-- Recognition stage of the JS `Number(string)` conversion on the decimal
fragment: whitespace-trimmed; the empty string converts to 0; an optional
sign followed by digits, with at most one decimal point and at least one
digit, is accepted; everything else is NaN (`none`).
(Hexadecimal and exponent forms are not modelled.) -/
def jsNumberParse (s : String) : Option DecLit :=
  let t := trimChars s.toList
  if t = [] then some { neg := false, ip := [], fp := [] } else
  let sgncs : Bool × List Char :=
    match t with
    | '+' :: cs => (false, cs)
    | '-' :: cs => (true, cs)
    | cs => (false, cs)
  let ip := sgncs.2.takeWhile Char.isDigit
  let rest := sgncs.2.dropWhile Char.isDigit
  match rest with
  | [] => if ip.isEmpty then none else some { neg := sgncs.1, ip := ip, fp := [] }
  | '.' :: fp =>
    if fp.all Char.isDigit && !(ip.isEmpty && fp.isEmpty) then
      some { neg := sgncs.1, ip := ip, fp := fp }
    else none
  | _ => none

/-- Embedding of the JS `Number(string)` conversion: the rational value of
the recognized literal, or `none` for NaN. -/
def jsNumber (s : String) : Option ℚ :=
  (jsNumberParse s).map DecLit.val

/-- Embedding of the JS `parseInt(string)` conversion at radix 10:
whitespace-trimmed, optional sign, value of the leading digit run; NaN
(`none`) when there is no leading digit. (`0x` forms are not modelled.) -/
def parseIntJS (s : String) : Option Int :=
  let t := trimChars s.toList
  let sgncs : Int × List Char :=
    match t with
    | '+' :: cs => (1, cs)
    | '-' :: cs => (-1, cs)
    | cs => (1, cs)
  let ds := sgncs.2.takeWhile Char.isDigit
  if ds.isEmpty then none else some (sgncs.1 * (digitsVal ds : Int))

/-- Embedding of `getKeys()` in DBOperations.ts: reads `event_key` and
`org_key` from the page store and throws when either is falsy (absent keys
are embedded as the empty string, the falsy string). -/
def getKeys (event_key org_key : String) : Except SyncError (String × String) :=
  if event_key = "" ∨ org_key = "" then
    Except.error (SyncError.jsError "event_key and org_key not set!")
  else Except.ok (event_key, org_key)

namespace EventOperations

/-- Embedding of `EventOperations.download`: get keys, fetch the event, then
`db.transaction('rw', db.events, ...)` adding the fetched event. The fetch
outcome is a parameter (`Except FetchError`), its rejection aborting before
any store access. -/
def download (event_key org_key : String)
    (fetchedEvent : Except FetchError EventRec) (s : LocalStore) : SyncResult :=
  match getKeys event_key org_key with
  | Except.error e => (Except.error e, s)
  | Except.ok _ =>
    match fetchedEvent with
    | Except.error fe => (Except.error (SyncError.fetchFailed fe), s)
    | Except.ok event =>
      LocalDB.transaction [.events] s (fun tx => tx.eventsAdd event)

end EventOperations

namespace TeamOperations

/-- Embedding of `TeamOperations.download`: get keys, fetch the team list,
then `db.transaction('rw', db.events, ...)` — note that the source lists ONLY
`db.events` in the transaction scope although the body reads and writes
`db.teams` — look up the event, `assert(event, 'Event not found in local
db')`, delete the teams in the event's key list and bulk-add the fetched
teams. -/
def download (event_key org_key : String)
    (fetchedTeams : Except FetchError (List TeamLocal)) (s : LocalStore) : SyncResult :=
  match getKeys event_key org_key with
  | Except.error e => (Except.error e, s)
  | Except.ok _ =>
    match fetchedTeams with
    | Except.error fe => (Except.error (SyncError.fetchFailed fe), s)
    | Except.ok teams =>
      LocalDB.transaction [.events] s (fun tx => do
        let eventOpt ← tx.eventsWhereKeyFirst event_key
        match eventOpt with
        | none => Except.error (SyncError.jsError "Event not found in local db")
        | some event => do
          let del ← tx.teamsWhereKeyAnyOfDelete event.team_keys
          del.2.teamsBulkAdd teams)

end TeamOperations

namespace MatchOperations

/-- Embedding of `MatchOperations.download`: get keys, fetch the match list,
then `db.transaction('rw', db.lightmatches, db.syncstatus, ...)` — with
`db.syncstatus` undefined under the version-13 schema — deleting the event's
matches, bulk-adding the fetched set and upserting a SyncStatus row. -/
def download (event_key org_key : String)
    (fetchedMatches : Except FetchError (List LightMatch)) (now : Nat)
    (s : LocalStore) : SyncResult :=
  match getKeys event_key org_key with
  | Except.error e => (Except.error e, s)
  | Except.ok _ =>
    match fetchedMatches with
    | Except.error fe => (Except.error (SyncError.fetchFailed fe), s)
    | Except.ok matchList =>
      LocalDB.transaction [.lightmatches, .syncstatus] s (fun tx => do
        let del ← tx.lightmatchesWhereEventDelete event_key
        let tx2 ← del.2.lightmatchesBulkAdd matchList
        tx2.syncstatusPut
          { table := "lightmatches", filter := "event=" ++ event_key, time := now })

end MatchOperations

namespace MatchScoutingOperations

/-- Embedding of `MatchScoutingOperations.download`: get keys, fetch the
assignment list, then `db.transaction('rw', db.matchscouting, db.syncstatus,
...)` — with `db.syncstatus` undefined under the version-13 schema —
bulk-upserting the assignments and upserting a SyncStatus row. -/
def download (event_key org_key : String)
    (fetchedAssignments : Except FetchError (List MatchScoutingLocal)) (now : Nat)
    (s : LocalStore) : SyncResult :=
  match getKeys event_key org_key with
  | Except.error e => (Except.error e, s)
  | Except.ok _ =>
    match fetchedAssignments with
    | Except.error fe => (Except.error (SyncError.fetchFailed fe), s)
    | Except.ok matchScouting =>
      LocalDB.transaction [.matchscouting, .syncstatus] s (fun tx => do
        let tx2 ← tx.matchscoutingBulkPut matchScouting
        tx2.syncstatusPut
          { table := "orgs",
            filter := "org=" ++ org_key ++ ",event=" ++ event_key, time := now })

end MatchScoutingOperations

/-- The assertion message thrown by `FormLayoutOperations.download` when the
year derived from the event key is NaN. -/
def yearNaNMsg (event_key : String) : String :=
  "Failed to pull year from event_key: " ++ event_key ++ ", got a NaN!"

/-- JS number-to-string conversion: integral values print without a
fractional part; the non-integral branch is a placeholder (that branch is
unreachable in every embedded flow, because the enclosing transaction call
always rejects before the interpolated string is stored). -/
def jsNumToString (q : ℚ) : String :=
  if q.den = 1 then toString q.num else toString q

namespace FormLayoutOperations

/-- Embedding of `FormLayoutOperations.download`: get keys, derive the year
as `Number(event_key.substring(0, 4))` and `assert(!isNaN(year), ...)`, fetch
the match-form and pit-form layouts, then `db.transaction('rw', db.layout,
db.syncstatus, ...)` — with `db.syncstatus` undefined under the version-13
schema — deleting both form types for (org, year), bulk-upserting both
fetched sets and bulk-upserting two SyncStatus rows. -/
def download (event_key org_key : String)
    (fetchedMatchForm fetchedPitForm : Except FetchError (List LayoutRec))
    (now : Nat) (s : LocalStore) : SyncResult :=
  match getKeys event_key org_key with
  | Except.error e => (Except.error e, s)
  | Except.ok _ =>
    match jsNumber (event_key.take 4) with
    | none => (Except.error (SyncError.jsError (yearNaNMsg event_key)), s)
    | some year =>
      match fetchedMatchForm with
      | Except.error fe => (Except.error (SyncError.fetchFailed fe), s)
      | Except.ok matchFormData =>
        match fetchedPitForm with
        | Except.error fe => (Except.error (SyncError.fetchFailed fe), s)
        | Except.ok pitFormData =>
          LocalDB.transaction [.layout, .syncstatus] s (fun tx => do
            let delPit ← tx.layoutWhereDelete org_key year "pitscouting"
            let delMatch ← delPit.2.layoutWhereDelete org_key year "matchscouting"
            let tx2 ← delMatch.2.layoutBulkPut pitFormData
            let tx3 ← tx2.layoutBulkPut matchFormData
            tx3.syncstatusBulkPut
              [ { table := "layout",
                  filter := "org=" ++ org_key ++ ",year=" ++ jsNumToString year ++ ",type=matchscouting",
                  time := now },
                { table := "layout",
                  filter := "org=" ++ org_key ++ ",year=" ++ jsNumToString year ++ ",type=pitscouting",
                  time := now } ])

end FormLayoutOperations

/-- A user's role (only the numeric access level is consulted). -/
structure UserRole where
  access_level : Int
deriving DecidableEq

/-- The signed-in user as seen by `functions.authenticate`. -/
structure AuthUser where
  name : String
  role : UserRole
deriving DecidableEq

/-- The request fields consulted by `functions.authenticate`. -/
structure AuthReq where
  user : Option AuthUser
  method : String
  originalUrl : String
deriving DecidableEq

/-- Outcome of evaluating `req.authenticate(accessLevel)`: either a thrown
`Error` (the non-numeric access-level branch) or a resolved boolean together
with the list of redirects issued on the way. -/
inductive AuthOutcome where
  | thrown (msg : String)
  | result (value : Bool) (redirects : List String)
deriving DecidableEq

/-- The message thrown when the access level does not parse as a number. -/
def accessLevelNaNMsg : String :=
  "req.authenticate: Access level is not a number (Check naming of process.env.ACCESS_X)"

/-- Embedding of the `authenticate` callable that `functions.authenticate`
attaches to the request: parse the access level (throwing on NaN); with a
user, resolve true when `user.role.access_level >= accessLevel`, otherwise
redirect (to login for a GET by the anonymous `default_user`, else to the
not-authorized alert) and resolve false; with no user, redirect to the index
carrying the original URL and resolve false. -/
def authenticate (req : AuthReq) (accessLevel : String) : AuthOutcome :=
  match parseIntJS accessLevel with
  | none => AuthOutcome.thrown accessLevelNaNMsg
  | some lvl =>
    match req.user with
    | some user =>
      if user.role.access_level ≥ lvl then AuthOutcome.result true []
      else if req.method = "GET" ∧ user.name = "default_user" then
        AuthOutcome.result false ["/user/login?redirectURL=" ++ req.originalUrl]
      else
        AuthOutcome.result false ["/?alert=You are not authorized to access this page.&type=error"]
    | none =>
      AuthOutcome.result false ["/?redirectURL=" ++ req.originalUrl]

/-- A JS property descriptor, as passed to `Object.defineProperty`. -/
structure PropertyDescriptor (α : Type) where
  value : α
  writable : Bool

/-- Embedding of the middleware body of `functions.authenticate`: it attaches
the `authenticate` callable to the request via `Object.defineProperty` with
`writable: false`. -/
def authenticateDescriptor (req : AuthReq) : PropertyDescriptor (String → AuthOutcome) :=
  { value := fun accessLevel => authenticate req accessLevel, writable := false }

/-- The date components read off `new Date(req.requestTime)` by the request
logger (`getMonth() + 1` is already applied to `month`). -/
structure ReqDate where
  year : Int
  month : Nat
  day : Nat
  hours : Nat
  minutes : Nat
  seconds : Nat
deriving DecidableEq

/-- Embedding of the `month.length<2? '0'+month : month` padding step. -/
def padZero (s : String) : String :=
  if s.length < 2 then "0" ++ s else s

/-- Embedding of the `formattedReqTime` computation of
`functions.requestLogger` (identical in `functions.logger` of
src/scripts/usefunctions.js): month and day are zero-padded, then
`[year, month, day, [hours, minutes, seconds].join(':')].join('-')`. -/
def formattedReqTime (d : ReqDate) : String :=
  let month := padZero (toString d.month)
  let day := padZero (toString d.day)
  String.intercalate "-"
    [toString d.year, month, day,
     String.intercalate ":" [toString d.hours, toString d.minutes, toString d.seconds]]

/-- The exact getKeys rejection when either context key is falsy. -/
lemma getKeys_falsy (ek okk : String) (h : ek = "" ∨ okk = "") :
    getKeys ek okk = Except.error (SyncError.jsError "event_key and org_key not set!") := by
  simp [getKeys, h]

/-- getKeys succeeds when both context keys are set. -/
lemma getKeys_set (ek okk : String) (h : ¬(ek = "" ∨ okk = "")) :
    getKeys ek okk = Except.ok (ek, okk) := by
  simp [getKeys] at h ⊢
  simp [h.1, h.2]

/-- A failed event fetch aborts EventOperations.download without touching
the store. -/
lemma eventDownload_fetchFail (ek okk : String) (fe : FetchError) (s : LocalStore) :
    (EventOperations.download ek okk (Except.error fe) s).2 = s ∧
    (EventOperations.download ek okk (Except.error fe) s).1 ≠ Except.ok () := by
  by_cases hk : ek = "" ∨ okk = "" <;>
    simp [EventOperations.download, getKeys_falsy, getKeys_set, hk]

/-- A failed team fetch aborts TeamOperations.download without touching the
store. -/
lemma teamDownload_fetchFail (ek okk : String) (fe : FetchError) (s : LocalStore) :
    (TeamOperations.download ek okk (Except.error fe) s).2 = s ∧
    (TeamOperations.download ek okk (Except.error fe) s).1 ≠ Except.ok () := by
  by_cases hk : ek = "" ∨ okk = "" <;>
    simp [TeamOperations.download, getKeys_falsy, getKeys_set, hk]

/-- A failed match fetch aborts MatchOperations.download without touching
the store. -/
lemma matchDownload_fetchFail (ek okk : String) (fe : FetchError) (now : Nat) (s : LocalStore) :
    (MatchOperations.download ek okk (Except.error fe) now s).2 = s ∧
    (MatchOperations.download ek okk (Except.error fe) now s).1 ≠ Except.ok () := by
  by_cases hk : ek = "" ∨ okk = "" <;>
    simp [MatchOperations.download, getKeys_falsy, getKeys_set, hk]

/-- A failed assignment fetch aborts MatchScoutingOperations.download
without touching the store. -/
lemma matchScoutingDownload_fetchFail (ek okk : String) (fe : FetchError) (now : Nat)
    (s : LocalStore) :
    (MatchScoutingOperations.download ek okk (Except.error fe) now s).2 = s ∧
    (MatchScoutingOperations.download ek okk (Except.error fe) now s).1 ≠ Except.ok () := by
  by_cases hk : ek = "" ∨ okk = "" <;>
    simp [MatchScoutingOperations.download, getKeys_falsy, getKeys_set, hk]

/-- A failed match-form fetch aborts FormLayoutOperations.download without
touching the store (whatever the pit-form fetch would have returned). -/
lemma formLayoutDownload_fetchFail1 (ek okk : String) (fe : FetchError)
    (f2 : Except FetchError (List LayoutRec)) (now : Nat) (s : LocalStore) :
    (FormLayoutOperations.download ek okk (Except.error fe) f2 now s).2 = s ∧
    (FormLayoutOperations.download ek okk (Except.error fe) f2 now s).1 ≠ Except.ok () := by
  by_cases hk : ek = "" ∨ okk = ""
  · simp [FormLayoutOperations.download, getKeys_falsy, hk]
  · rcases hy : jsNumber (ek.take 4) with _ | y <;>
      simp [FormLayoutOperations.download, getKeys_set, hk, hy]

/-- A failed pit-form fetch aborts FormLayoutOperations.download without
touching the store (whatever the match-form fetch returned). -/
lemma formLayoutDownload_fetchFail2 (ek okk : String)
    (f1 : Except FetchError (List LayoutRec)) (fe : FetchError) (now : Nat) (s : LocalStore) :
    (FormLayoutOperations.download ek okk f1 (Except.error fe) now s).2 = s ∧
    (FormLayoutOperations.download ek okk f1 (Except.error fe) now s).1 ≠ Except.ok () := by
  by_cases hk : ek = "" ∨ okk = ""
  · simp [FormLayoutOperations.download, getKeys_falsy, hk]
  · rcases hy : jsNumber (ek.take 4) with _ | y
    · simp [FormLayoutOperations.download, getKeys_set, hk, hy]
    · rcases f1 with f1e | f1v <;>
        simp [FormLayoutOperations.download, getKeys_set, hk, hy]

/-- C1: for every sync operation (Event, Team, Match, MatchScouting,
FormLayout download) and every starting local-store state, if the HTTP fetch
step fails (non-2xx or malformed body, `Except.error fe`), the operation
aborts with an error (its settled result is not `ok`) and the local store —
every table, including the SyncStatus rows — is left exactly unchanged. -/
theorem sync_fetch_failure_leaves_store_unchanged
    (ek okk : String) (s : LocalStore) (now : Nat) (fe : FetchError) :
    ((EventOperations.download ek okk (Except.error fe) s).2 = s
      ∧ (EventOperations.download ek okk (Except.error fe) s).1 ≠ Except.ok ())
    ∧ ((TeamOperations.download ek okk (Except.error fe) s).2 = s
      ∧ (TeamOperations.download ek okk (Except.error fe) s).1 ≠ Except.ok ())
    ∧ ((MatchOperations.download ek okk (Except.error fe) now s).2 = s
      ∧ (MatchOperations.download ek okk (Except.error fe) now s).1 ≠ Except.ok ())
    ∧ ((MatchScoutingOperations.download ek okk (Except.error fe) now s).2 = s
      ∧ (MatchScoutingOperations.download ek okk (Except.error fe) now s).1 ≠ Except.ok ())
    ∧ (∀ f2 : Except FetchError (List LayoutRec),
        (FormLayoutOperations.download ek okk (Except.error fe) f2 now s).2 = s
      ∧ (FormLayoutOperations.download ek okk (Except.error fe) f2 now s).1 ≠ Except.ok ())
    ∧ (∀ f1 : Except FetchError (List LayoutRec),
        (FormLayoutOperations.download ek okk f1 (Except.error fe) now s).2 = s
      ∧ (FormLayoutOperations.download ek okk f1 (Except.error fe) now s).1 ≠ Except.ok ()) :=
  ⟨eventDownload_fetchFail ek okk fe s,
   teamDownload_fetchFail ek okk fe s,
   matchDownload_fetchFail ek okk fe now s,
   matchScoutingDownload_fetchFail ek okk fe now s,
   fun f2 => formLayoutDownload_fetchFail1 ek okk fe f2 now s,
   fun f1 => formLayoutDownload_fetchFail2 ek okk f1 fe now s⟩

/-- A transaction whose table arguments are all declared runs its body. -/
lemma transaction_valid (scope : List TableName)
    (h : scope.all (fun t => LocalDB.declaredTables.contains t) = true)
    (s : LocalStore) (body : Tx → Except SyncError Tx) :
    LocalDB.transaction scope s body
      = match body { scope := scope, store := s } with
        | Except.ok tx => (Except.ok (), tx.store)
        | Except.error e => (Except.error e, s) := by
  simp only [LocalDB.transaction]
  rw [if_pos h]

/-- A transaction with an undeclared (undefined) table argument rejects
before running its body. -/
lemma transaction_invalid (scope : List TableName)
    (h : scope.all (fun t => LocalDB.declaredTables.contains t) = false)
    (s : LocalStore) (body : Tx → Except SyncError Tx) :
    LocalDB.transaction scope s body
      = (Except.error (SyncError.typeError dexieInvalidTableArgMsg), s) := by
  simp only [LocalDB.transaction]
  rw [if_neg (by intro hc; rw [h] at hc; exact absurd hc (by decide))]

/-- Evaluation of TeamOperations.download once the context keys are set and
the fetch succeeded: the prerequisite check decides between the missing-event
assertion and (because `db.teams` is outside the transaction scope) Dexie's
NotFoundError; either way the transaction rolls back. -/
lemma teamDownload_eval (ek okk : String) (teams : List TeamLocal) (s : LocalStore)
    (hk : ¬(ek = "" ∨ okk = "")) :
    TeamOperations.download ek okk (Except.ok teams) s
      = match s.events.find? (fun r => r.key == ek) with
        | none => (Except.error (SyncError.jsError "Event not found in local db"), s)
        | some _ => (Except.error (SyncError.tableNotInTransaction TableName.teams), s) := by
  cases hfind : s.events.find? (fun r => r.key == ek) with
  | none =>
    simp only [TeamOperations.download, getKeys_set ek okk hk]
    rw [transaction_valid _ (by decide) s _]
    rw [show Tx.eventsWhereKeyFirst { scope := [TableName.events], store := s } ek
        = Except.ok (s.events.find? (fun r => r.key == ek)) from rfl]
    rw [hfind]
    rfl
  | some ev =>
    simp only [TeamOperations.download, getKeys_set ek okk hk]
    rw [transaction_valid _ (by decide) s _]
    rw [show Tx.eventsWhereKeyFirst { scope := [TableName.events], store := s } ek
        = Except.ok (s.events.find? (fun r => r.key == ek)) from rfl]
    rw [hfind]
    rfl

/-- C2: for every fresh event (no Event record with the current event key in
the local events table), a Team sync whose context keys are set and whose
fetch succeeded rejects with the `assert(event, 'Event not found in local
db')` failure — the code's realization of the spec's
`PrerequisiteMissingError` — and performs no writes: the whole store,
the teams table included, is returned unchanged. -/
theorem team_sync_fresh_event_prerequisite_missing
    (ek okk : String) (teams : List TeamLocal) (s : LocalStore)
    (hek : ek ≠ "") (hok : okk ≠ "")
    (hfresh : ∀ e ∈ s.events, e.key ≠ ek) :
    TeamOperations.download ek okk (Except.ok teams) s
      = (Except.error (SyncError.jsError "Event not found in local db"), s) := by
  have hfind : s.events.find? (fun r => r.key == ek) = none := by
    rw [List.find?_eq_none]
    intro e he
    simpa using hfresh e he
  rw [teamDownload_eval ek okk teams s (not_or.mpr ⟨hek, hok⟩), hfind]

/-- Witness for C2: a concrete fresh store (no events cached at all). -/
theorem team_sync_fresh_event_prerequisite_missing_witness :
    TeamOperations.download "2024test" "frc102" (Except.ok []) emptyStore
      = (Except.error (SyncError.jsError "Event not found in local db"), emptyStore) :=
  team_sync_fresh_event_prerequisite_missing "2024test" "frc102" [] emptyStore
    (by decide) (by decide) (fun e he => absurd he (List.not_mem_nil e))

/-- The cached `"2024test"` event of the spec's concrete Team-sync scenario,
with team keys `["frc1", "frc2"]`. -/
def eventTest2024 : EventRec :=
  { _id := "evt-2024test", key := "2024test", name := "Test Event",
    year := 2024, team_keys := ["frc1", "frc2"] }

/-- The previously cached row for team frc1. -/
def teamFrc1Old : TeamLocal :=
  { city := some "Old Town", country := some "USA", key := "frc1",
    name := "Team One", nickname := "Old Nickname One",
    state_prov := some "MI", team_number := 1 }

/-- The previously cached row for team frc2. -/
def teamFrc2Old : TeamLocal :=
  { city := some "Old Town", country := some "USA", key := "frc2",
    name := "Team Two", nickname := "Old Nickname Two",
    state_prov := some "MI", team_number := 2 }

/-- The freshly fetched row for team frc1 (new field values). -/
def teamFrc1New : TeamLocal :=
  { city := some "New Town", country := some "USA", key := "frc1",
    name := "Team One", nickname := "New Nickname One",
    state_prov := some "MI", team_number := 1 }

/-- The freshly fetched row for team frc3. -/
def teamFrc3New : TeamLocal :=
  { city := some "New Town", country := some "USA", key := "frc3",
    name := "Team Three", nickname := "New Nickname Three",
    state_prov := some "MI", team_number := 3 }

/-- The starting store of the concrete Team-sync scenario: event "2024test"
cached, teams frc1 and frc2 cached. -/
def storeTeamScenario : LocalStore :=
  { emptyStore with events := [eventTest2024], teams := [teamFrc1Old, teamFrc2Old] }

/-- C3: in the spec's concrete scenario (event "2024test" with cached teams
frc1/frc2, fetch returning frc1(new) and frc3) the claim expects the teams
table to become exactly the two fetched rows. The code instead rejects: the
transaction is scoped to `db.events` only, so the body's first `db.teams`
access throws Dexie's NotFoundError, the transaction rolls back, and the
teams table still holds frc1(old) and frc2(old). -/
theorem team_sync_concrete_scenario_rejected :
    TeamOperations.download "2024test" "frc102"
        (Except.ok [teamFrc1New, teamFrc3New]) storeTeamScenario
      = (Except.error (SyncError.tableNotInTransaction TableName.teams), storeTeamScenario)
    ∧ storeTeamScenario.teams = [teamFrc1Old, teamFrc2Old] := by
  constructor
  · decide
  · rfl

/-- C4: the idempotence claim presupposes a state in which one Team sync has
succeeded, but no such state exists: for every context, fetch outcome and
starting store, TeamOperations.download settles with an error (context
missing, fetch failed, prerequisite event missing, or — once all those pass —
Dexie's NotFoundError for the out-of-scope `db.teams`) and leaves the store
unchanged. -/
theorem team_sync_never_succeeds (ek okk : String)
    (f : Except FetchError (List TeamLocal)) (s : LocalStore) :
    (TeamOperations.download ek okk f s).1 ≠ Except.ok ()
    ∧ (TeamOperations.download ek okk f s).2 = s := by
  by_cases hk : ek = "" ∨ okk = ""
  · constructor <;> simp [TeamOperations.download, getKeys_falsy ek okk hk]
  · cases f with
    | error fe =>
      exact ⟨(teamDownload_fetchFail ek okk fe s).2, (teamDownload_fetchFail ek okk fe s).1⟩
    | ok teams =>
      rw [teamDownload_eval ek okk teams s hk]
      cases hfind : s.events.find? (fun r => r.key == ek) with
      | none => exact ⟨by simp, rfl⟩
      | some ev => exact ⟨by simp, rfl⟩

/-- C7: the claim speaks of the state after every successful Match sync, but
no Match sync can succeed and no SyncStatus row is ever written: for every
context, fetch outcome, clock and starting store, MatchOperations.download
settles with an error — once context and fetch pass, the transaction call
itself rejects with Dexie's TypeError because `db.syncstatus` is `undefined`
(the version-13 schema declares no syncstatus table) — and leaves the store,
its `syncstatus` rows included, unchanged. -/
theorem match_sync_syncstatus_never_written (ek okk : String)
    (f : Except FetchError (List LightMatch)) (now : Nat) (s : LocalStore) :
    (MatchOperations.download ek okk f now s).1 ≠ Except.ok ()
    ∧ (MatchOperations.download ek okk f now s).2 = s := by
  by_cases hk : ek = "" ∨ okk = ""
  · constructor <;> simp [MatchOperations.download, getKeys_falsy ek okk hk]
  · cases f with
    | error fe =>
      exact ⟨(matchDownload_fetchFail ek okk fe now s).2,
             (matchDownload_fetchFail ek okk fe now s).1⟩
    | ok ms =>
      simp only [MatchOperations.download, getKeys_set ek okk hk]
      rw [transaction_invalid _ (by decide) s _]
      exact ⟨by simp, rfl⟩

/-- A locally cached match-scouting row carrying local-only values (an
actual scorer, scouted data, a team name). -/
def msLocalOld : MatchScoutingLocal :=
  { year := 2024, event_key := "2024test", org_key := "frc102",
    match_team_key := "2024test_qm1_frc1", team_key := "frc1",
    time := 100, assigned_scorer := some { id := "u1", name := "Sam" },
    actual_scorer := some { id := "u1", name := "Sam" },
    data := some [("autoPoints", 7)], team_name := some "Old Nickname" }

/-- A fetched assignment with the same composite match+team key but new
field values (and no actual scorer / data fields). -/
def msFetchedNew : MatchScoutingLocal :=
  { year := 2024, event_key := "2024test", org_key := "frc102",
    match_team_key := "2024test_qm1_frc1", team_key := "frc1",
    time := 200, assigned_scorer := some { id := "u2", name := "Riley" },
    actual_scorer := none, data := none, team_name := some "New Nickname" }

/-- A store holding exactly the one cached match-scouting row. -/
def storeMsScenario : LocalStore := { emptyStore with matchscouting := [msLocalOld] }

/-- C5 counterexample: with a local row and a fetched assignment sharing the
composite key "2024test_qm1_frc1", the claim expects the fetched fields
(e.g. the team name "New Nickname") to be written over the matching row. The
code instead rejects at the transaction call (`db.syncstatus` is undefined)
and the row still carries its old values — no field was overwritten. -/
theorem matchscouting_field_merge_counterexample :
    MatchScoutingOperations.download "2024test" "frc102"
        (Except.ok [msFetchedNew]) 200 storeMsScenario
      = (Except.error (SyncError.typeError dexieInvalidTableArgMsg), storeMsScenario)
    ∧ ((MatchScoutingOperations.download "2024test" "frc102"
        (Except.ok [msFetchedNew]) 200 storeMsScenario).2.matchscouting.map
          (fun r => r.team_name)) = [some "Old Nickname"]
    ∧ msFetchedNew.team_name = some "New Nickname" :=
  ⟨by decide, by decide, rfl⟩

/-- C5 as amended: MatchScouting sync never commits — for every context,
fetch outcome, clock and starting store the settled result is an error (once
context and fetch pass, the transaction call rejects with Dexie's TypeError
because `db.syncstatus` is `undefined` under the version-13 schema) and the
matchscouting table, along with the rest of the store, is unchanged: in
particular its row count is preserved but no field of any row is
overwritten. -/
theorem matchscouting_sync_never_commits (ek okk : String)
    (f : Except FetchError (List MatchScoutingLocal)) (now : Nat) (s : LocalStore) :
    (MatchScoutingOperations.download ek okk f now s).1 ≠ Except.ok ()
    ∧ (MatchScoutingOperations.download ek okk f now s).2 = s := by
  by_cases hk : ek = "" ∨ okk = ""
  · constructor <;> simp [MatchScoutingOperations.download, getKeys_falsy ek okk hk]
  · cases f with
    | error fe =>
      exact ⟨(matchScoutingDownload_fetchFail ek okk fe now s).2,
             (matchScoutingDownload_fetchFail ek okk fe now s).1⟩
    | ok rs =>
      simp only [MatchScoutingOperations.download, getKeys_set ek okk hk]
      rw [transaction_invalid _ (by decide) s _]
      exact ⟨by simp, rfl⟩

/-- Evaluation of FormLayoutOperations.download when the context keys are
set, the year parsed and both fetches succeeded: the transaction call still
rejects with Dexie's TypeError because `db.syncstatus` is undefined. -/
lemma formLayoutDownload_eval (ek okk : String) (mf pf : List LayoutRec)
    (now : Nat) (s : LocalStore) (hk : ¬(ek = "" ∨ okk = ""))
    (y : ℚ) (hy : jsNumber (ek.take 4) = some y) :
    FormLayoutOperations.download ek okk (Except.ok mf) (Except.ok pf) now s
      = (Except.error (SyncError.typeError dexieInvalidTableArgMsg), s) := by
  simp only [FormLayoutOperations.download, getKeys_set ek okk hk, hy]
  rw [transaction_invalid _ (by decide) s _]

/-- C6 as amended: FormLayout sync fails with the year assertion (the code's
realization of the spec's `InvalidEventKeyError`) exactly when the JS
`Number(...)` conversion of the event key's first four characters is NaN;
when those characters convert to any number — integral or not — the year
assertion passes and the operation never fails with that error (it fails
later, for the unrelated undefined-syncstatus reason, without mutating local
state). -/
theorem formlayout_year_nan_check (ek okk : String)
    (f1 f2 : Except FetchError (List LayoutRec)) (now : Nat) (s : LocalStore)
    (hek : ek ≠ "") (hok : okk ≠ "") :
    (jsNumber (ek.take 4) = none →
      FormLayoutOperations.download ek okk f1 f2 now s
        = (Except.error (SyncError.jsError (yearNaNMsg ek)), s))
    ∧ (jsNumber (ek.take 4) ≠ none →
      (FormLayoutOperations.download ek okk f1 f2 now s).1
        ≠ Except.error (SyncError.jsError (yearNaNMsg ek))) := by
  have hk : ¬(ek = "" ∨ okk = "") := not_or.mpr ⟨hek, hok⟩
  constructor
  · intro hy
    simp [FormLayoutOperations.download, getKeys_set ek okk hk, hy]
  · intro hy
    rcases hy2 : jsNumber (ek.take 4) with _ | y
    · exact absurd hy2 hy
    · cases f1 with
      | error fe => simp [FormLayoutOperations.download, getKeys_set ek okk hk, hy2]
      | ok mf =>
        cases f2 with
        | error fe => simp [FormLayoutOperations.download, getKeys_set ek okk hk, hy2]
        | ok pf =>
          rw [formLayoutDownload_eval ek okk mf pf now s hk y hy2]
          simp

/-- Witness for the amended C6: "2024miwayne" derives year 2024 (so the year
assertion passes and the failure, when it comes, is not the year assertion),
while "abcdwxyz" derives NaN and fails with exactly the year assertion,
before mutating local state. -/
theorem formlayout_year_nan_check_witness :
    jsNumber ("2024miwayne".take 4) = some 2024
    ∧ (FormLayoutOperations.download "2024miwayne" "frc102"
          (Except.ok []) (Except.ok []) 0 emptyStore).1
        ≠ Except.error (SyncError.jsError (yearNaNMsg "2024miwayne"))
    ∧ FormLayoutOperations.download "abcdwxyz" "frc102"
          (Except.ok []) (Except.ok []) 0 emptyStore
        = (Except.error (SyncError.jsError (yearNaNMsg "abcdwxyz")), emptyStore) := by
  have h2024 : jsNumber ("2024miwayne".take 4) = some 2024 := by
    rw [jsNumber, show jsNumberParse ("2024miwayne".take 4)
        = some { neg := false, ip := ['2', '0', '2', '4'], fp := [] } from by decide]
    simp [DecLit.val, show digitsVal ['2', '0', '2', '4'] = 2024 from by decide,
      show digitsVal [] = 0 from rfl]
  refine ⟨h2024, ?_, ?_⟩
  · exact (formlayout_year_nan_check "2024miwayne" "frc102" (Except.ok []) (Except.ok [])
      0 emptyStore (by decide) (by decide)).2 (by rw [h2024]; exact fun h => by cases h)
  · exact (formlayout_year_nan_check "abcdwxyz" "frc102" (Except.ok []) (Except.ok [])
      0 emptyStore (by decide) (by decide)).1
      (by rw [jsNumber, show jsNumberParse ("abcdwxyz".take 4) = none from by decide]; rfl)

/-- C6 counterexample: the event key "12.3xyz" has first four characters
"12.3", which are not parseable as an integer, yet FormLayout sync does NOT
fail with the year assertion (the spec's `InvalidEventKeyError`): the JS
`Number(...)` conversion accepts 12.3, so the year check passes and the
operation fails later with the unrelated undefined-syncstatus TypeError. -/
theorem formlayout_year_integer_counterexample :
    jsNumber ("12.3xyz".take 4) = some ((123 : ℚ) / 10)
    ∧ FormLayoutOperations.download "12.3xyz" "frc102"
          (Except.ok []) (Except.ok []) 0 emptyStore
        = (Except.error (SyncError.typeError dexieInvalidTableArgMsg), emptyStore)
    ∧ (FormLayoutOperations.download "12.3xyz" "frc102"
          (Except.ok []) (Except.ok []) 0 emptyStore).1
        ≠ Except.error (SyncError.jsError (yearNaNMsg "12.3xyz")) := by
  have h123 : jsNumber ("12.3xyz".take 4) = some ((123 : ℚ) / 10) := by
    rw [jsNumber, show jsNumberParse ("12.3xyz".take 4)
        = some { neg := false, ip := ['1', '2'], fp := ['3'] } from by decide]
    rw [show Option.map DecLit.val (some { neg := false, ip := ['1', '2'], fp := ['3'] })
        = some (DecLit.val { neg := false, ip := ['1', '2'], fp := ['3'] }) from rfl]
    rw [show DecLit.val { neg := false, ip := ['1', '2'], fp := ['3'] }
        = (1 : ℚ) * ((digitsVal ['1', '2'] : ℚ) + (digitsVal ['3'] : ℚ) / ((10 : ℚ) ^ 1)) from rfl]
    rw [show digitsVal ['1', '2'] = 12 from by decide, show digitsVal ['3'] = 3 from by decide]
    norm_num
  have heval : FormLayoutOperations.download "12.3xyz" "frc102"
      (Except.ok []) (Except.ok []) 0 emptyStore
      = (Except.error (SyncError.typeError dexieInvalidTableArgMsg), emptyStore) :=
    formLayoutDownload_eval "12.3xyz" "frc102" [] [] 0 emptyStore (by decide) _ h123
  exact ⟨h123, heval, by rw [heval]; exact fun h => by cases h⟩

/-- C8: evaluating the attached `authenticate(accessLevel)` throws the fatal
programming-error `Error` exactly when the access-level argument does not
parse as a number; for every parseable argument it never throws — it
resolves to a boolean (after redirecting where applicable). -/
theorem authenticate_throws_iff_not_number (req : AuthReq) (accessLevel : String) :
    (∃ m, authenticate req accessLevel = AuthOutcome.thrown m)
      ↔ parseIntJS accessLevel = none := by
  rcases hp : parseIntJS accessLevel with _ | lvl
  · simp [authenticate, hp]
  · rcases hu : req.user with _ | u
    · simp [authenticate, hp, hu]
    · simp only [authenticate, hp, hu]
      constructor
      · rintro ⟨m, hm⟩
        split_ifs at hm
      · intro h
        cases h

/-- A sample request: a GET by a signed-in user with access level 5. -/
def reqSample : AuthReq :=
  { user := some { name := "sam", role := { access_level := 5 } },
    method := "GET", originalUrl := "/dashboard" }

/-- C10: once the access level parses (`parseInt n = some k`), the attached
`authenticate` resolves true with no redirect exactly when a signed-in user
with `role.access_level >= k` is present; in every other case (no user, or
insufficient level) it issues exactly one redirect and resolves false; and
the middleware attaches the callable with `writable: false`, so the
`req.authenticate` property is non-writable. -/
theorem authenticate_resolution_spec (req : AuthReq) (n : String) (k : Int)
    (h : parseIntJS n = some k) :
    ((∃ u, req.user = some u ∧ k ≤ u.role.access_level) →
        authenticate req n = AuthOutcome.result true [])
    ∧ ((¬∃ u, req.user = some u ∧ k ≤ u.role.access_level) →
        ∃ url, authenticate req n = AuthOutcome.result false [url])
    ∧ (authenticateDescriptor req).writable = false := by
  refine ⟨?_, ?_, rfl⟩
  · rintro ⟨u, hu, hle⟩
    simp only [authenticate, h, hu]
    rw [if_pos hle]
  · intro hn
    rcases hu : req.user with _ | u
    · simp only [authenticate, h, hu]
      exact ⟨_, rfl⟩
    · have hlt : ¬(u.role.access_level ≥ k) := fun hge => hn ⟨u, hu, hge⟩
      simp only [authenticate, h, hu]
      rw [if_neg hlt]
      by_cases hm : req.method = "GET" ∧ u.name = "default_user"
      · rw [if_pos hm]
        exact ⟨_, rfl⟩
      · rw [if_neg hm]
        exact ⟨_, rfl⟩

/-- Witness for C10: access level "3" parses to 3, the sample user with
level 5 is authenticated with no redirect, and the attached property is
non-writable. -/
theorem authenticate_resolution_spec_witness :
    parseIntJS "3" = some 3
    ∧ authenticate reqSample "3" = AuthOutcome.result true []
    ∧ (authenticateDescriptor reqSample).writable = false := by
  have h := authenticate_resolution_spec reqSample "3" 3 (by decide)
  exact ⟨by decide, h.1 ⟨_, rfl, by decide⟩, h.2.2⟩

/-- Unfolding of a three-element join (the `[hours, minutes, seconds].join(':')` step). -/
lemma intercalate_three (sep a b c : String) :
    String.intercalate sep [a, b, c] = a ++ sep ++ b ++ sep ++ c := rfl

/-- Unfolding of the four-element `join('-')` of the logger. -/
lemma intercalate_four (sep a b c d : String) :
    String.intercalate sep [a, b, c, d] = a ++ sep ++ b ++ sep ++ c ++ sep ++ d := rfl

/-- The logged timestamp, written out: year, padded month, padded day, then
the colon-joined unpadded time components. -/
lemma formattedReqTime_eq (d : ReqDate) :
    formattedReqTime d
      = toString d.year ++ "-" ++ padZero (toString d.month) ++ "-"
        ++ padZero (toString d.day) ++ "-"
        ++ (toString d.hours ++ ":" ++ toString d.minutes ++ ":" ++ toString d.seconds) := rfl

/-- A number in 1..31 prints as two characters after the zero-padding step. -/
lemma padZero_length_two (n : Nat) (h1 : 1 ≤ n) (h2 : n ≤ 31) :
    (padZero (toString n)).length = 2 := by
  interval_cases n <;> decide

/-- A single-digit number prints as one character. -/
lemma toString_length_one (n : Nat) (h : n < 10) : (toString n).length = 1 := by
  interval_cases n <;> decide

/-- A request date with single-digit time-of-day components:
2024-03-04, 05:06:07 local time. -/
def dateSample : ReqDate :=
  { year := 2024, month := 3, day := 4, hours := 5, minutes := 6, seconds := 7 }

/-- C9 counterexample: at 05:06:07 on 2024-03-04 the logged timestamp is
"2024-03-04-5:6:7" — 16 characters, not the 19 of the claimed fixed
YYYY-MM-DD-HH:MM:SS format, because hours, minutes and seconds are joined
without zero-padding. -/
theorem request_time_format_counterexample :
    formattedReqTime dateSample = "2024-03-04-5:6:7"
    ∧ (formattedReqTime dateSample).length ≠ 19 := by
  constructor <;> decide

/-- C9 as amended: the logged timestamp is the year, a dash, the month and
day each zero-padded to exactly two digits, a dash, then hours, minutes and
seconds joined with colons WITHOUT zero-padding (a single-digit hour prints
as one character), i.e. the format is YYYY-MM-DD-H:M:S with only month and
day padded. -/
theorem request_time_format_padding (d : ReqDate)
    (hm1 : 1 ≤ d.month) (hm2 : d.month ≤ 12)
    (hd1 : 1 ≤ d.day) (hd2 : d.day ≤ 31) :
    formattedReqTime d
      = toString d.year ++ "-" ++ padZero (toString d.month) ++ "-"
        ++ padZero (toString d.day) ++ "-"
        ++ (toString d.hours ++ ":" ++ toString d.minutes ++ ":" ++ toString d.seconds)
    ∧ (padZero (toString d.month)).length = 2
    ∧ (padZero (toString d.day)).length = 2
    ∧ (d.hours < 10 → (toString d.hours).length = 1) :=
  ⟨formattedReqTime_eq d,
   padZero_length_two d.month hm1 (le_trans hm2 (by norm_num)),
   padZero_length_two d.day hd1 hd2,
   fun hh => toString_length_one d.hours hh⟩

/-- Witness for the amended C9 at the concrete counterexample date. -/
theorem request_time_format_padding_witness :
    formattedReqTime dateSample
      = toString dateSample.year ++ "-" ++ padZero (toString dateSample.month) ++ "-"
        ++ padZero (toString dateSample.day) ++ "-"
        ++ (toString dateSample.hours ++ ":" ++ toString dateSample.minutes
            ++ ":" ++ toString dateSample.seconds)
    ∧ (padZero (toString dateSample.month)).length = 2
    ∧ (padZero (toString dateSample.day)).length = 2
    ∧ (toString dateSample.hours).length = 1 := by
  have h := request_time_format_padding dateSample
    (by decide) (by decide) (by decide) (by decide)
  exact ⟨h.1, h.2.1, h.2.2.1, h.2.2.2 (by decide)⟩
